import Mathlib

/-!
Shallow embedding of the CAMotics simulation-project core:
src/camotics/sim/Project.cpp and src/camotics/sim/Tool.cpp.

Modelling conventions.  C++ doubles are modelled as exact rationals; the two
places where the code computes transcendental functions (the cube root in
Project::computeResolution, atan/tan in the tool angle queries) are modelled
over the reals, with the C constant M_PI modelled as the real number pi.
The cbang geometry helpers (cb::Vector3D, cb::Rectangle3D) are outside this
repository; they are modelled from the spec where it speaks (a running union
rectangle extended point by point) and from their use sites here.
-/

/-- Rational 3-vector, modelling cb::Vector3D (doubles as exact rationals). -/
structure Vec3 where
  x : ℚ
  y : ℚ
  z : ℚ
  deriving DecidableEq

/-- Axis-aligned box, modelling cb::Rectangle3D: a min corner and a max corner. -/
structure Rectangle3D where
  rmin : Vec3
  rmax : Vec3
  deriving DecidableEq

/-- The default-constructed cb::Rectangle3D: both corners at the origin. -/
def Rectangle3D.defaultRect : Rectangle3D := ⟨⟨0, 0, 0⟩, ⟨0, 0, 0⟩⟩

/-- Modelled from the spec: cb::Rectangle3D::add(point) is outside this
repository.  Adding a point extends the running union rectangle to contain
the point, componentwise; a default-constructed (all-zero) rectangle is
replaced by the degenerate rectangle at the point. -/
def Rectangle3D.addPt (r : Rectangle3D) (p : Vec3) : Rectangle3D :=
  if r = Rectangle3D.defaultRect then ⟨p, p⟩
  else ⟨⟨min r.rmin.x p.x, min r.rmin.y p.y, min r.rmin.z p.z⟩,
        ⟨max r.rmax.x p.x, max r.rmax.y p.y, max r.rmax.z p.z⟩⟩

/-- Modelled from the spec: cb::Rectangle3D::add(rectangle) unions a whole
box into the running rectangle (both corners are added). -/
def Rectangle3D.addRect (r s : Rectangle3D) : Rectangle3D :=
  (r.addPt s.rmin).addPt s.rmax

/-- cb::Rectangle3D::getWidth: extent in x. -/
def Rectangle3D.getWidth (r : Rectangle3D) : ℚ := r.rmax.x - r.rmin.x

/-- cb::Rectangle3D::getLength: extent in y. -/
def Rectangle3D.getLen (r : Rectangle3D) : ℚ := r.rmax.y - r.rmin.y

/-- cb::Rectangle3D::getHeight: extent in z. -/
def Rectangle3D.getHeight (r : Rectangle3D) : ℚ := r.rmax.z - r.rmin.z

/-- cb::Rectangle3D::getVolume: product of the three extents. -/
def Rectangle3D.getVolume (r : Rectangle3D) : ℚ :=
  r.getWidth * r.getLen * r.getHeight

/-- ResolutionMode enum from the project renderer options
(values low, medium, high, very-high, manual). -/
inductive ResolutionMode where
  | low
  | medium
  | high
  | veryHigh
  | manual
  deriving DecidableEq

/-- Project::computeResolution (Project.cpp lines 141-154).  Returns 1 for
manual mode or for bounds equal to the default-constructed rectangle;
otherwise the cube root of volume divided by the mode divisor, with the
medium divisor 250000 as the switch default. -/
noncomputable def computeResolution (mode : ResolutionMode) (bounds : Rectangle3D) : ℝ :=
  if mode = ResolutionMode.manual ∨ bounds = Rectangle3D.defaultRect then 1
  else
    let divisor : ℝ :=
      match mode with
      | ResolutionMode.low => 100000
      | ResolutionMode.high => 5000000
      | ResolutionMode.veryHigh => 10000000
      | _ => 250000
    ((bounds.getVolume : ℝ) / divisor) ^ ((1 : ℝ) / 3)

/-- GCode::ToolUnits enum (mm or inch). -/
inductive ToolUnits where
  | mm
  | inch
  deriving DecidableEq

/-- Modelled from the spec: the ToolShape enum declaration (Tool.h) is not in
the provided sources.  The shape values cylindrical, conical, ballnose,
spheroidal, snubnose are modelled by their underlying integers 0..4, so that
out-of-enumeration values (reachable in C++ by casting) remain expressible. -/
def TS_CYLINDRICAL : ℕ := 0

/-- Conical tool shape value. -/
def TS_CONICAL : ℕ := 1

/-- Ballnose tool shape value. -/
def TS_BALLNOSE : ℕ := 2

/-- Spheroidal tool shape value. -/
def TS_SPHEROID : ℕ := 3

/-- Snubnose tool shape value. -/
def TS_SNUBNOSE : ℕ := 4

/-- A CAMotics tool.  Modelled from the spec (Tool.h is not in the provided
sources) together with the Tool.cpp constructor: metric defaults are
length 10, radius 1, snub diameter 0, cylindrical shape, mm units.
Lengths are stored internally in millimetres. -/
structure Tool where
  number : ℕ := 0
  pocket : ℕ := 0
  units : ToolUnits := ToolUnits.mm
  shape : ℕ := TS_CYLINDRICAL
  length : ℚ := 10
  radius : ℚ := 1
  snubDiameter : ℚ := 0
  description : String := ""
  deriving DecidableEq

/-- Tool::setNumber. -/
def Tool.setNumber (t : Tool) (n : ℕ) : Tool := { t with number := n }

/-- Tool::setUnits (unit changes do not rescale stored lengths). -/
def Tool.setUnits (t : Tool) (u : ToolUnits) : Tool := { t with units := u }

/-- Tool::setShape. -/
def Tool.setShape (t : Tool) (s : ℕ) : Tool := { t with shape := s }

/-- Tool::setLength. -/
def Tool.setLength (t : Tool) (l : ℚ) : Tool := { t with length := l }

/-- Tool::setRadius. -/
def Tool.setRadius (t : Tool) (r : ℚ) : Tool := { t with radius := r }

/-- Tool::getDiameter: twice the radius. -/
def Tool.getDiameter (t : Tool) : ℚ := 2 * t.radius

/-- Tool::setDiameter: stores half the diameter as the radius. -/
def Tool.setDiameter (t : Tool) (d : ℚ) : Tool := { t with radius := d / 2 }

/-- Tool::setSnubDiameter. -/
def Tool.setSnubDiameter (t : Tool) (s : ℚ) : Tool := { t with snubDiameter := s }

/-- Tool::setDescription. -/
def Tool.setDescription (t : Tool) (d : String) : Tool := { t with description := d }

/-- Swept-solid generators produced by Tool::getSweep.  The concrete sweep
classes (ConicSweep, SpheroidSweep, CompositeSweep) are outside the provided
sources; each constructor records exactly the arguments passed at the
construction sites in Tool.cpp, and the composite holds its (sweep, z-offset)
pairs in the order they are added. -/
inductive Sweep where
  | conicSweep (length radius1 radius2 : ℚ)
  | spheroidSweep (radius length : ℚ)
  | compositeSweep (parts : List (Sweep × ℚ))

/-- True exactly on the error case of an Except value (a C++ throw). -/
def exceptIsError {ε α : Type} : Except ε α → Bool
  | Except.error _ => true
  | Except.ok _ => false

/-- Tool::getSweep (Tool.cpp lines 104-128): dispatch on the tool shape;
any shape outside the five enumerated values throws. -/
def Tool.getSweep (t : Tool) : Except String Sweep :=
  if t.shape = TS_CYLINDRICAL then
    Except.ok (Sweep.conicSweep t.length t.radius t.radius)
  else if t.shape = TS_CONICAL then
    Except.ok (Sweep.conicSweep t.length t.radius 0)
  else if t.shape = TS_BALLNOSE then
    Except.ok (Sweep.compositeSweep
      [(Sweep.spheroidSweep t.radius (2 * t.radius), 0),
       (Sweep.conicSweep t.length t.radius t.radius, t.radius)])
  else if t.shape = TS_SPHEROID then
    Except.ok (Sweep.spheroidSweep t.radius t.length)
  else if t.shape = TS_SNUBNOSE then
    Except.ok (Sweep.conicSweep t.length t.radius (t.snubDiameter / 2))
  else Except.error "Invalid tool shape"

/-- The XML attribute set consumed and produced by Tool::read / Tool::write
(XMLAttributes form).  Only the attributes those functions touch are
modelled.  An attribute value is modelled by its parse outcome: the outer
Option is attribute presence (attrs.has), the inner Option is whether
cbang String::parseDouble / the enum parse accepts the token (none models a
token whose parse throws). -/
structure XMLAttrs where
  number : Option ℕ := none
  unitsAttr : Option (Option ToolUnits) := none
  shapeAttr : Option (Option ℕ) := none
  lengthAttr : Option (Option ℚ) := none
  radiusAttr : Option (Option ℚ) := none
  diameterAttr : Option (Option ℚ) := none
  snubAttr : Option (Option ℚ) := none
  deriving DecidableEq

/-- Tool::read(const XMLAttributes) (Tool.cpp lines 137-160).  Unknown units
or shape tokens are caught and ignored (CATCH_ERROR); a missing length, a
missing radius-and-diameter pair, and any present numeric attribute whose
parse throws are fatal.  Imperial values are scaled by 25.4 on read. -/
def Tool.readXML (t : Tool) (a : XMLAttrs) : Except String Tool := do
  let t :=
    match a.unitsAttr with
    | some (some u) => t.setUnits u
    | _ => t
  let t :=
    match a.shapeAttr with
    | some (some s) => t.setShape s
    | _ => t
  let scale : ℚ := if t.units = ToolUnits.inch then 254 / 10 else 1
  let t ←
    match a.lengthAttr with
    | some (some v) => pure (t.setLength (v * scale))
    | some none => Except.error "length parse error"
    | none => Except.error "Tool missing length"
  let t ←
    match a.radiusAttr with
    | some (some v) => pure (t.setRadius (v * scale))
    | some none => Except.error "radius parse error"
    | none =>
      match a.diameterAttr with
      | some (some v) => pure (t.setRadius (v / 2 * scale))
      | some none => Except.error "diameter parse error"
      | none => Except.error "Tool has neither radius or diameter"
  match a.snubAttr with
  | some (some v) => pure (t.setSnubDiameter (v * scale))
  | some none => Except.error "snub_diameter parse error"
  | none => pure t

/-- Tool::write(XMLWriter) (Tool.cpp lines 163-177), restricted to the
attribute set it emits.  Imperial values are scaled by 1/25.4 on write;
snub_diameter is emitted only for snubnose tools whose snub diameter
exceeds the constant small = 0.0000001.  Valid enum values print to tokens
their parse accepts; a shape outside the enumeration is modelled as
printing an unparsable token. -/
def Tool.writeXML (t : Tool) : XMLAttrs :=
  let scale : ℚ := if t.units = ToolUnits.inch then 10 / 254 else 1
  { number := some t.number
    unitsAttr := some (some t.units)
    shapeAttr := some (if t.shape < 5 then some t.shape else none)
    lengthAttr := some (some (t.length * scale))
    radiusAttr := some (some (t.radius * scale))
    diameterAttr := none
    snubAttr :=
      if t.shape = TS_SNUBNOSE ∧ 1 / 10000000 < t.snubDiameter then
        some (some (t.snubDiameter * scale))
      else none }

/-- The JSON dictionary consumed and produced by the JSON forms of
Tool::read / Tool::write.  String-valued entries (units, shape) are modelled
by their parse outcome as in XMLAttrs; numeric entries are numbers and
cannot fail to parse (JSON getNumber). -/
structure ToolJSON where
  number : Option ℕ := none
  unitsKey : Option (Option ToolUnits) := none
  shapeKey : Option (Option ℕ) := none
  lengthKey : Option ℚ := none
  diameterKey : Option ℚ := none
  snubKey : Option ℚ := none
  descriptionKey : Option String := none
  deriving DecidableEq

/-- Tool::write(JSON::Sink, withNumber) (Tool.cpp lines 180-195).
The diameter (not the radius) is written; snub_diameter is written exactly
when the shape is snubnose. -/
def Tool.writeJSON (t : Tool) (withNumber : Bool) : ToolJSON :=
  let scale : ℚ := if t.units = ToolUnits.inch then 10 / 254 else 1
  { number := if withNumber then some t.number else none
    unitsKey := some (some t.units)
    shapeKey := some (if t.shape < 5 then some t.shape else none)
    lengthKey := some (t.length * scale)
    diameterKey := some (t.getDiameter * scale)
    snubKey := if t.shape = TS_SNUBNOSE then some (t.snubDiameter * scale) else none
    descriptionKey := some t.description }

/-- Tool::read(const JSON::Value) (Tool.cpp lines 198-219).  The units and
shape parses are not wrapped in a catch here, so an unknown token throws;
absent keys keep the tool's previous values; the description defaults to
the empty string. -/
def Tool.readJSON (t : Tool) (j : ToolJSON) : Except String Tool := do
  let t := t.setNumber (j.number.getD t.number)
  let t ←
    match j.unitsKey with
    | some (some u) => pure { t with units := u }
    | some none => Except.error "unknown units"
    | none => pure t
  let scale : ℚ := if t.units = ToolUnits.inch then 254 / 10 else 1
  let t ←
    match j.shapeKey with
    | some (some s) => pure { t with shape := s }
    | some none => Except.error "unknown shape"
    | none => pure t
  let t := match j.lengthKey with | some n => t.setLength (n * scale) | none => t
  let t := match j.diameterKey with | some n => t.setDiameter (n * scale) | none => t
  let t := match j.snubKey with | some n => t.setSnubDiameter (n * scale) | none => t
  pure (t.setDescription (j.descriptionKey.getD ""))

/-- The C library round (half away from zero), as used by Tool::getAngle. -/
noncomputable def roundHalfFromZero (x : ℝ) : ℝ :=
  if x < 0 then -((⌊-x + 1 / 2⌋ : ℤ) : ℝ) else ((⌊x + 1 / 2⌋ : ℤ) : ℝ)

/-- Tool::getAngle (Tool.cpp lines 93-96): 180 - 360·atan(length/radius)/pi,
rounded to two decimal places. -/
noncomputable def Tool.getAngle (t : Tool) : ℝ :=
  roundHalfFromZero ((180 - 360 * Real.arctan ((t.length : ℝ) / (t.radius : ℝ)) / Real.pi) * 100) / 100

/-- Tool::setLengthFromAngle (Tool.cpp lines 99-101): the length value it
stores, radius·tan((1 - angle/180)·pi/2).  (The C++ mutates the tool; the
stored length is the whole effect.) -/
noncomputable def Tool.setLengthFromAngleVal (t : Tool) (angle : ℝ) : ℝ :=
  (t.radius : ℝ) * Real.tan ((1 - angle / 180) * Real.pi / 2)

/-- Project::encodeFilename character table (Project.cpp lines 356-371):
tab, LF, VT, CR, percent and space become percent escapes (note the code
writes the escape 07 for tab), all other characters pass through. -/
def encodeChar (c : Char) : List Char :=
  if c = '\t' then ['%', '0', '7']
  else if c = '\n' then ['%', '0', 'A']
  else if c = Char.ofNat 11 then ['%', '0', 'B']
  else if c = '\r' then ['%', '0', 'D']
  else if c = '%' then ['%', '2', '5']
  else if c = ' ' then ['%', '2', '0']
  else [c]

/-- Project::encodeFilename: pointwise escape of the whole string
(modelled on lists of characters). -/
def encodeFilename (s : List Char) : List Char :=
  List.flatten (s.map encodeChar)

/-- Value of one hex digit, as accepted by strtoul base 16 inside
cbang String::parseU8 (both letter cases); none for a non-hex character. -/
def hexVal (c : Char) : Option ℕ :=
  if '0' ≤ c ∧ c ≤ '9' then some (c.toNat - 48)
  else if 'a' ≤ c ∧ c ≤ 'f' then some (c.toNat - 87)
  else if 'A' ≤ c ∧ c ≤ 'F' then some (c.toNat - 55)
  else none

/-- String::parseU8 applied to the string 0x followed by the two characters:
the byte value when both are hex digits, a throw (none) otherwise. -/
def parseHexByte (c1 c2 : Char) : Option Char := do
  let h1 ← hexVal c1
  let h2 ← hexVal c2
  pure (Char.ofNat (16 * h1 + h2))

/-- The loop body of Project::decodeFilename for strings of length at least
two: a percent sign with at least two characters after it starts an escape
(the condition i < size - 2); otherwise the character is copied. -/
def decodeLoop : List Char → Option (List Char)
  | c :: c1 :: c2 :: rest =>
    if c = '%' then do
      let ch ← parseHexByte c1 c2
      let tail ← decodeLoop rest
      pure (ch :: tail)
    else do
      let tail ← decodeLoop (c1 :: c2 :: rest)
      pure (c :: tail)
  | c :: rest => do
    let tail ← decodeLoop rest
    pure (c :: tail)
  | [] => pure []

/-- Project::decodeFilename (Project.cpp lines 374-385).  The guard
i < size - 2 is computed in unsigned arithmetic, so a single-character
string consisting of a percent sign underflows the comparison, parses the
empty substring and throws (modelled as none). -/
def decodeFilename (s : List Char) : Option (List Char) :=
  match s with
  | ['%'] => none
  | s => decodeLoop s

/-- GCode move types (spec section 6: motion segments are rapid or cutting). -/
inductive MoveType where
  | rapid
  | cutting
  deriving DecidableEq

/-- One motion segment, as consumed by Project::updateAutomaticWorkpiece:
a type, a tool id (an int, negative means no tool) and the two endpoints. -/
structure Move where
  type : MoveType
  tool : ℤ
  startPt : Vec3
  endPt : Vec3
  deriving DecidableEq

/-- Project state (Project.h is not in the provided sources; the fields are
the option store targets and members used by Project.cpp).  Option string
values are modelled typed; the workpiece-min/max option strings are modelled
as Option Vec3, none standing for the empty string; automatic-workpiece
models a cbang option with no value as none.  The resolution field is a
plain double in C++ (its policy function is passed as a parameter where a
state transition recomputes it, because the exact value is a real-valued
cube root, settled separately for computeResolution). -/
structure ProjectState where
  units : ToolUnits := ToolUnits.mm
  resolutionMode : ResolutionMode := ResolutionMode.medium
  resolution : ℚ := 0
  filename : String := ""
  workpieceMargin : ℚ := 5
  workpieceMin : Option Vec3 := none
  workpieceMax : Option Vec3 := none
  automaticWorkpiece : Option Bool := none
  workpiece : Rectangle3D := Rectangle3D.defaultRect
  dirty : Bool := false
  deriving DecidableEq

/-- Project::markDirty. -/
def ProjectState.markDirty (p : ProjectState) : ProjectState := { p with dirty := true }

/-- Project::getWorkpieceBounds (Project.cpp lines 347-353): empty strings
parse to the zero vector. -/
def ProjectState.getWorkpieceBounds (p : ProjectState) : Rectangle3D :=
  ⟨p.workpieceMin.getD ⟨0, 0, 0⟩, p.workpieceMax.getD ⟨0, 0, 0⟩⟩

/-- Project::setUnits (Project.cpp lines 106-110). -/
def ProjectState.setUnits (p : ProjectState) (u : ToolUnits) : ProjectState :=
  if u = p.units then p else ProjectState.markDirty { p with units := u }

/-- Project::setResolution (Project.cpp lines 132-138): applies a differing
value, but marks the project dirty only in manual resolution mode. -/
def ProjectState.setResolution (p : ProjectState) (x : ℚ) : ProjectState :=
  if x = p.resolution then p
  else
    let p := { p with resolution := x }
    if p.resolutionMode = ResolutionMode.manual then p.markDirty else p

/-- Project::updateResolution (Project.cpp lines 157-162), with the
resolution policy cr passed as a parameter (see ProjectState). -/
def ProjectState.updateResolution (cr : ResolutionMode → Rectangle3D → ℚ)
    (p : ProjectState) : ProjectState :=
  if p.resolutionMode ≠ ResolutionMode.manual then
    p.setResolution (cr p.resolutionMode p.getWorkpieceBounds)
  else p

/-- Project::setResolutionMode (Project.cpp lines 123-129). -/
def ProjectState.setResolutionMode (cr : ResolutionMode → Rectangle3D → ℚ)
    (p : ProjectState) (x : ResolutionMode) : ProjectState :=
  if x = p.resolutionMode then p
  else ProjectState.updateResolution cr (ProjectState.markDirty { p with resolutionMode := x })

/-- Project::setFilename (Project.cpp lines 93-97): empty or identical new
names are ignored. -/
def ProjectState.setFilename (p : ProjectState) (f : String) : ProjectState :=
  if f = "" ∨ p.filename = f then p else ProjectState.markDirty { p with filename := f }

/-- Project::setWorkpieceMargin (Project.cpp lines 331-335). -/
def ProjectState.setWorkpieceMargin (p : ProjectState) (x : ℚ) : ProjectState :=
  if p.workpieceMargin = x then p else ProjectState.markDirty { p with workpieceMargin := x }

/-- Project::getAutomaticWorkpiece (Project.cpp lines 318-322): the stored
option must have a true value, or both workpiece bound strings are empty. -/
def ProjectState.getAutomaticWorkpiece (p : ProjectState) : Bool :=
  p.automaticWorkpiece.getD false || (p.workpieceMin.isNone && p.workpieceMax.isNone)

/-- Project::setAutomaticWorkpiece (Project.cpp lines 325-328). -/
def ProjectState.setAutomaticWorkpiece (p : ProjectState) (x : Bool) : ProjectState :=
  let p := if p.getAutomaticWorkpiece ≠ x then p.markDirty else p
  { p with automaticWorkpiece := some x }

/-- Project::setWorkpieceBounds (Project.cpp lines 338-344): store the
corners, recompute the resolution, mark dirty when not automatic, cache the
rectangle. -/
def ProjectState.setWorkpieceBounds (cr : ResolutionMode → Rectangle3D → ℚ)
    (p : ProjectState) (bounds : Rectangle3D) : ProjectState :=
  let p := { p with workpieceMin := some bounds.rmin, workpieceMax := some bounds.rmax }
  let p := ProjectState.updateResolution cr p
  let p := if ¬ p.getAutomaticWorkpiece then p.markDirty else p
  { p with workpiece := bounds }

/-- The bounding boxes contributed by a tool path inside
Project::updateAutomaticWorkpiece (lines 278-291): rapid moves and negative
tool ids contribute nothing; otherwise the tool's sweep produces boxes for
the segment.  The per-tool sweep construction and
Sweep::getBBoxes(start, end, boxes, 0) live outside the provided sources and
are abstracted as the parameter getB, keyed by tool id and the endpoints. -/
def pathBBoxes (getB : ℤ → Vec3 → Vec3 → List Rectangle3D) (path : List Move) :
    List Rectangle3D :=
  path.foldr
    (fun mv acc =>
      if mv.type = MoveType.rapid ∨ mv.tool < 0 then acc
      else getB mv.tool mv.startPt mv.endPt ++ acc)
    []

/-- The running union of the contributed boxes (line 293), starting from a
default-constructed rectangle. -/
def accumulateBounds (getB : ℤ → Vec3 → Vec3 → List Rectangle3D) (path : List Move) :
    Rectangle3D :=
  (pathBBoxes getB path).foldl Rectangle3D.addRect Rectangle3D.defaultRect

/-- Lines 297-304 of Project::updateAutomaticWorkpiece: clamp the top face
to z = 0, then, if the resulting height is below 2, add the point 2 below
the original minimum corner. -/
def clampWorkpiece (wp : Rectangle3D) : Rectangle3D :=
  let bMin := wp.rmin
  let bMax := wp.rmax
  let w : Rectangle3D := ⟨bMin, ⟨bMax.x, bMax.y, 0⟩⟩
  if w.getHeight < 2 then w.addPt ⟨bMin.x, bMin.y, bMin.z - 2⟩ else w

/-- Lines 306-311 of Project::updateAutomaticWorkpiece: the margin vector is
margin percent of all three dimensions; the minimum corner is pushed out by
the full vector, the maximum corner only in x and y (the second add reads
the maximum after the first add). -/
def applyMargin (w : Rectangle3D) (m : ℚ) : Rectangle3D :=
  let mg : Vec3 := ⟨w.getWidth * m / 100, w.getLen * m / 100, w.getHeight * m / 100⟩
  let w1 := w.addPt ⟨w.rmin.x - mg.x, w.rmin.y - mg.y, w.rmin.z - mg.z⟩
  w1.addPt ⟨w1.rmax.x + mg.x, w1.rmax.y + mg.y, w1.rmax.z⟩

/-- Project::updateAutomaticWorkpiece (Project.cpp lines 269-315).  The
isReal check before committing always passes in this exact-rational model
(NaN and infinities are floating-point artefacts). -/
def updateAutomaticWorkpiece (cr : ResolutionMode → Rectangle3D → ℚ)
    (getB : ℤ → Vec3 → Vec3 → List Rectangle3D) (path : List Move)
    (p : ProjectState) : ProjectState :=
  if ¬ p.getAutomaticWorkpiece then p
  else
    let p := p.setAutomaticWorkpiece true
    let wp := accumulateBounds getB path
    if wp = Rectangle3D.defaultRect then p
    else ProjectState.setWorkpieceBounds cr p (applyMargin (clampWorkpiece wp) p.workpieceMargin)

theorem addPt_of_ne_default (r : Rectangle3D) (p : Vec3) (h : r ≠ Rectangle3D.defaultRect) :
    r.addPt p = ⟨⟨min r.rmin.x p.x, min r.rmin.y p.y, min r.rmin.z p.z⟩,
                 ⟨max r.rmax.x p.x, max r.rmax.y p.y, max r.rmax.z p.z⟩⟩ := by
  unfold Rectangle3D.addPt
  exact if_neg h

/-- C1 counterexample: the claim says every zero-volume bounds yields
resolution 1, but the code only special-cases bounds equal to the
default-constructed rectangle.  The degenerate point rectangle at (1,1,1)
has zero volume yet takes the cube-root branch and yields 0. -/
theorem computeResolution_zero_volume_counterexample :
    Rectangle3D.getVolume ⟨⟨1, 1, 1⟩, ⟨1, 1, 1⟩⟩ = 0 ∧
    computeResolution ResolutionMode.medium ⟨⟨1, 1, 1⟩, ⟨1, 1, 1⟩⟩ ≠ 1 := by
  constructor
  · norm_num [Rectangle3D.getVolume, Rectangle3D.getWidth, Rectangle3D.getLen,
      Rectangle3D.getHeight]
  · unfold computeResolution
    rw [if_neg (by decide)]
    have h0 : ((Rectangle3D.getVolume ⟨⟨1, 1, 1⟩, ⟨1, 1, 1⟩⟩ : ℚ) : ℝ) = 0 := by
      norm_num [Rectangle3D.getVolume, Rectangle3D.getWidth, Rectangle3D.getLen,
        Rectangle3D.getHeight]
    simp only [h0, zero_div]
    rw [Real.zero_rpow (by norm_num)]
    norm_num

/-- C1 (amended): computeResolution returns 1 in manual mode and for bounds
equal to the default all-zero rectangle (the only degenerate case the code
tests); any other bounds, including non-default zero-volume bounds, take
the cube-root branch with divisor 100000 (low), 250000 (medium, the switch
default), 5000000 (high) or 10000000 (very-high). -/
theorem computeResolution_amended_policy :
    (∀ b, computeResolution ResolutionMode.manual b = 1) ∧
    (∀ m, computeResolution m Rectangle3D.defaultRect = 1) ∧
    (∀ b, b ≠ Rectangle3D.defaultRect →
      computeResolution ResolutionMode.low b =
        ((b.getVolume : ℝ) / 100000) ^ ((1 : ℝ) / 3) ∧
      computeResolution ResolutionMode.medium b =
        ((b.getVolume : ℝ) / 250000) ^ ((1 : ℝ) / 3) ∧
      computeResolution ResolutionMode.high b =
        ((b.getVolume : ℝ) / 5000000) ^ ((1 : ℝ) / 3) ∧
      computeResolution ResolutionMode.veryHigh b =
        ((b.getVolume : ℝ) / 10000000) ^ ((1 : ℝ) / 3)) := by
  refine ⟨fun b => by simp [computeResolution], fun m => by simp [computeResolution],
    fun b hb => ?_⟩
  refine ⟨?_, ?_, ?_, ?_⟩ <;>
    · unfold computeResolution
      rw [if_neg (not_or.mpr ⟨by decide, hb⟩)]

/-- C1 witness: the spec's own medium example, bounds of volume exactly
250000, gives resolution 1. -/
theorem computeResolution_amended_policy_witness :
    computeResolution ResolutionMode.medium ⟨⟨0, 0, 0⟩, ⟨100, 100, 25⟩⟩ = 1 := by
  have h := (computeResolution_amended_policy.2.2 ⟨⟨0, 0, 0⟩, ⟨100, 100, 25⟩⟩ (by decide)).2.1
  rw [h]
  have h0 : ((Rectangle3D.getVolume ⟨⟨0, 0, 0⟩, ⟨100, 100, 25⟩⟩ : ℚ) : ℝ) = 250000 := by
    norm_num [Rectangle3D.getVolume, Rectangle3D.getWidth, Rectangle3D.getLen,
      Rectangle3D.getHeight]
  rw [h0]
  norm_num [Real.one_rpow]

/-- C3: evaluating the filename codec at a tab.  encodeFilename writes the
escape 07 for the tab character (ASCII 9), but decodeFilename parses the
escape as hexadecimal, yielding the bell character (ASCII 7): the
round-trip fails on any string containing a tab. -/
theorem decode_encode_tab_mismatch :
    decodeFilename (encodeFilename ['\t']) = some [Char.ofNat 7] ∧
    decodeFilename (encodeFilename ['\t']) ≠ some ['\t'] := by
  constructor
  · decide
  · decide

/-- C4: Tool::getSweep maps each of the five tool shapes to exactly the
swept-solid generator the claim states, and any other shape value is a
fatal unknown-tool-shape error. -/
theorem getSweep_shape_mapping :
    ∀ t : Tool,
      (t.shape = TS_CYLINDRICAL →
        t.getSweep = Except.ok (Sweep.conicSweep t.length t.radius t.radius)) ∧
      (t.shape = TS_CONICAL →
        t.getSweep = Except.ok (Sweep.conicSweep t.length t.radius 0)) ∧
      (t.shape = TS_BALLNOSE →
        t.getSweep = Except.ok (Sweep.compositeSweep
          [(Sweep.spheroidSweep t.radius (2 * t.radius), 0),
           (Sweep.conicSweep t.length t.radius t.radius, t.radius)])) ∧
      (t.shape = TS_SPHEROID →
        t.getSweep = Except.ok (Sweep.spheroidSweep t.radius t.length)) ∧
      (t.shape = TS_SNUBNOSE →
        t.getSweep = Except.ok (Sweep.conicSweep t.length t.radius (t.snubDiameter / 2))) ∧
      (5 ≤ t.shape → t.getSweep = Except.error "Invalid tool shape") := by
  intro t
  refine ⟨fun h => ?_, fun h => ?_, fun h => ?_, fun h => ?_, fun h => ?_, fun h => ?_⟩
  · simp [Tool.getSweep, h, TS_CYLINDRICAL, TS_CONICAL, TS_BALLNOSE, TS_SPHEROID, TS_SNUBNOSE]
  · simp [Tool.getSweep, h, TS_CYLINDRICAL, TS_CONICAL, TS_BALLNOSE, TS_SPHEROID, TS_SNUBNOSE]
  · simp [Tool.getSweep, h, TS_CYLINDRICAL, TS_CONICAL, TS_BALLNOSE, TS_SPHEROID, TS_SNUBNOSE]
  · simp [Tool.getSweep, h, TS_CYLINDRICAL, TS_CONICAL, TS_BALLNOSE, TS_SPHEROID, TS_SNUBNOSE]
  · simp [Tool.getSweep, h, TS_CYLINDRICAL, TS_CONICAL, TS_BALLNOSE, TS_SPHEROID, TS_SNUBNOSE]
  · unfold Tool.getSweep TS_CYLINDRICAL TS_CONICAL TS_BALLNOSE TS_SPHEROID TS_SNUBNOSE
    rw [if_neg (by omega), if_neg (by omega), if_neg (by omega), if_neg (by omega),
      if_neg (by omega)]

/-- C4 witness: the mapping evaluated at concrete tools of each shape
(default metric sizes length 10, radius 1, snub diameter 0) and at the
out-of-enumeration shape value 9. -/
theorem getSweep_shape_mapping_witness :
    Tool.getSweep { shape := TS_CYLINDRICAL } = Except.ok (Sweep.conicSweep 10 1 1) ∧
    Tool.getSweep { shape := TS_CONICAL } = Except.ok (Sweep.conicSweep 10 1 0) ∧
    Tool.getSweep { shape := TS_BALLNOSE } = Except.ok (Sweep.compositeSweep
      [(Sweep.spheroidSweep 1 (2 * 1), 0), (Sweep.conicSweep 10 1 1, 1)]) ∧
    Tool.getSweep { shape := TS_SPHEROID } = Except.ok (Sweep.spheroidSweep 1 10) ∧
    Tool.getSweep { shape := TS_SNUBNOSE } = Except.ok (Sweep.conicSweep 10 1 (0 / 2)) ∧
    Tool.getSweep { shape := 9 } = Except.error "Invalid tool shape" :=
  ⟨(getSweep_shape_mapping _).1 rfl, (getSweep_shape_mapping _).2.1 rfl,
   (getSweep_shape_mapping _).2.2.1 rfl, (getSweep_shape_mapping _).2.2.2.1 rfl,
   (getSweep_shape_mapping _).2.2.2.2.1 rfl,
   (getSweep_shape_mapping _).2.2.2.2.2 (by norm_num)⟩

/-- C10: with both workpiece bound strings empty, getAutomaticWorkpiece is
true whatever the stored option says, and setAutomaticWorkpiece(false)
cannot make it false. -/
theorem getAutomaticWorkpiece_empty_bounds :
    ∀ p : ProjectState, p.workpieceMin = none → p.workpieceMax = none →
      p.getAutomaticWorkpiece = true ∧
      (p.setAutomaticWorkpiece false).getAutomaticWorkpiece = true := by
  intro p h1 h2
  constructor
  · simp [ProjectState.getAutomaticWorkpiece, h1, h2]
  · unfold ProjectState.setAutomaticWorkpiece
    split <;>
      simp [ProjectState.getAutomaticWorkpiece, ProjectState.markDirty, h1, h2]

/-- C10 witness: the default-constructed project state has empty bound
strings; it reports automatic workpiece before and after
setAutomaticWorkpiece(false). -/
theorem getAutomaticWorkpiece_empty_bounds_witness :
    ProjectState.getAutomaticWorkpiece {} = true ∧
    (ProjectState.setAutomaticWorkpiece {} false).getAutomaticWorkpiece = true :=
  getAutomaticWorkpiece_empty_bounds {} rfl rfl

/-- C5 counterexample: an attribute set with a present but unparsable
length and a perfectly good radius makes Tool::read throw, although the
length attribute is present and radius/diameter are not both missing. -/
theorem readXML_unparsable_length_counterexample :
    exceptIsError (Tool.readXML {}
      { lengthAttr := some none, radiusAttr := some (some 1) }) = true ∧
    ({ lengthAttr := some none, radiusAttr := some (some 1) } : XMLAttrs).lengthAttr ≠ none ∧
    ¬(({ lengthAttr := some none, radiusAttr := some (some 1) } : XMLAttrs).radiusAttr = none ∧
      ({ lengthAttr := some none, radiusAttr := some (some 1) } : XMLAttrs).diameterAttr = none) := by
  refine ⟨rfl, by simp, by simp⟩

/-- C5 (amended): Tool::read over XML attributes throws exactly when the
length attribute is missing or unparsable, or the radius attribute is
present but unparsable, or the radius is absent and the diameter is missing
or unparsable, or a present snub_diameter is unparsable; unknown units or
shape tokens are caught and ignored and never abort the read. -/
theorem readXML_error_iff_amended :
    ∀ (t : Tool) (a : XMLAttrs),
      exceptIsError (t.readXML a) = true ↔
        (a.lengthAttr = none ∨ a.lengthAttr = some none ∨
         a.radiusAttr = some none ∨
         (a.radiusAttr = none ∧ (a.diameterAttr = none ∨ a.diameterAttr = some none)) ∨
         a.snubAttr = some none) := by
  intro t a
  rcases a with ⟨n, u, sh, l, r, d, sb⟩
  rcases l with _ | (_ | lv) <;> rcases r with _ | (_ | rv) <;>
    rcases d with _ | (_ | dv) <;> rcases sb with _ | (_ | sv) <;>
    simp [Tool.readXML, exceptIsError, Except.bind, bind, pure, Except.pure]

/-- C7 counterexample: in a non-manual (medium) resolution mode,
setResolution with a differing value applies the change but does not mark
the project dirty, contradicting the claim that every differing mutation
marks the project dirty. -/
theorem setResolution_not_dirty_counterexample :
    ((2 : ℚ) ≠
      ({ resolutionMode := ResolutionMode.medium, resolution := 1 } : ProjectState).resolution) ∧
    (ProjectState.setResolution
      { resolutionMode := ResolutionMode.medium, resolution := 1 } 2).resolution = 2 ∧
    (ProjectState.setResolution
      { resolutionMode := ResolutionMode.medium, resolution := 1 } 2).dirty = false := by
  refine ⟨by norm_num, ?_, ?_⟩
  · rw [ProjectState.setResolution, if_neg (by norm_num)]
    simp [ProjectState.markDirty]
  · rw [ProjectState.setResolution, if_neg (by norm_num)]
    simp [ProjectState.markDirty]

theorem updateResolution_fields (cr : ResolutionMode → Rectangle3D → ℚ) (p : ProjectState) :
    (ProjectState.updateResolution cr p).resolutionMode = p.resolutionMode ∧
    (ProjectState.updateResolution cr p).dirty = p.dirty := by
  by_cases hm : p.resolutionMode = ResolutionMode.manual <;>
    by_cases hv : cr p.resolutionMode p.getWorkpieceBounds = p.resolution <;>
      simp [ProjectState.updateResolution, ProjectState.setResolution,
        ProjectState.markDirty, hm, hv]

/-- C7 (amended): every listed mutator is a no-op when the new value equals
the current one; a differing value is applied and marks the project dirty
for setUnits, setResolutionMode and setWorkpieceMargin, while setResolution
applies the value but marks dirty only when the resolution mode is manual,
and setFilename ignores empty new names entirely. -/
theorem mutators_dirty_amended :
    ∀ (cr : ResolutionMode → Rectangle3D → ℚ) (p : ProjectState) (u : ToolUnits)
      (x : ResolutionMode) (r m : ℚ) (f : String),
      (p.setUnits p.units = p ∧
        (u ≠ p.units → (p.setUnits u).units = u ∧ (p.setUnits u).dirty = true)) ∧
      (ProjectState.setResolutionMode cr p p.resolutionMode = p ∧
        (x ≠ p.resolutionMode →
          (ProjectState.setResolutionMode cr p x).resolutionMode = x ∧
          (ProjectState.setResolutionMode cr p x).dirty = true)) ∧
      (p.setResolution p.resolution = p ∧
        (r ≠ p.resolution →
          (p.setResolution r).resolution = r ∧
          (p.setResolution r).dirty =
            (p.dirty || decide (p.resolutionMode = ResolutionMode.manual)))) ∧
      (p.setWorkpieceMargin p.workpieceMargin = p ∧
        (m ≠ p.workpieceMargin →
          (p.setWorkpieceMargin m).workpieceMargin = m ∧
          (p.setWorkpieceMargin m).dirty = true)) ∧
      (p.setFilename "" = p ∧ p.setFilename p.filename = p ∧
        (f ≠ "" → f ≠ p.filename →
          (p.setFilename f).filename = f ∧ (p.setFilename f).dirty = true)) := by
  intro cr p u x r m f
  refine ⟨⟨?_, fun h => ?_⟩, ⟨?_, fun h => ?_⟩, ⟨?_, fun h => ?_⟩, ⟨?_, fun h => ?_⟩,
    ⟨?_, ?_, fun h1 h2 => ?_⟩⟩
  · simp [ProjectState.setUnits]
  · simp [ProjectState.setUnits, h, ProjectState.markDirty]
  · simp [ProjectState.setResolutionMode]
  · rw [ProjectState.setResolutionMode, if_neg h]
    have hf := updateResolution_fields cr (ProjectState.markDirty { p with resolutionMode := x })
    rw [hf.1, hf.2]
    simp [ProjectState.markDirty]
  · simp [ProjectState.setResolution]
  · rw [ProjectState.setResolution, if_neg h]
    by_cases hm : p.resolutionMode = ResolutionMode.manual <;>
      simp [ProjectState.markDirty, hm]
  · simp [ProjectState.setWorkpieceMargin]
  · simp [ProjectState.setWorkpieceMargin, Ne.symm h, ProjectState.markDirty]
  · simp [ProjectState.setFilename]
  · simp [ProjectState.setFilename]
  · simp [ProjectState.setFilename, h1, Ne.symm h2, ProjectState.markDirty]

/-- C7 witness: the amended mutator behaviour evaluated on the default
project state (mm units, medium mode, resolution 0, margin 5, empty
filename): differing values are applied; setResolution in medium mode does
not set the dirty flag; the other mutators do. -/
theorem mutators_dirty_amended_witness :
    (ProjectState.setUnits {} ToolUnits.inch).units = ToolUnits.inch ∧
    (ProjectState.setUnits {} ToolUnits.inch).dirty = true ∧
    (ProjectState.setResolutionMode (fun _ _ => 1) {} ResolutionMode.manual).resolutionMode =
      ResolutionMode.manual ∧
    (ProjectState.setResolutionMode (fun _ _ => 1) {} ResolutionMode.manual).dirty = true ∧
    (ProjectState.setResolution {} 3).resolution = 3 ∧
    (ProjectState.setResolution {} 3).dirty = false ∧
    (ProjectState.setWorkpieceMargin {} 7).workpieceMargin = 7 ∧
    (ProjectState.setWorkpieceMargin {} 7).dirty = true ∧
    (ProjectState.setFilename {} "part.xml").filename = "part.xml" ∧
    (ProjectState.setFilename {} "part.xml").dirty = true := by
  have h := mutators_dirty_amended (fun _ _ => 1) {} ToolUnits.inch ResolutionMode.manual
    3 7 "part.xml"
  have hu := h.1.2 (by decide)
  have hx := h.2.1.2 (by decide)
  have hr := h.2.2.1.2 (by norm_num)
  have hm := h.2.2.2.1.2 (by norm_num)
  have hf := h.2.2.2.2.2.2 (by decide) (by decide)
  exact ⟨hu.1, hu.2, hx.1, hx.2, hr.1, by simpa using hr.2, hm.1, hm.2, hf.1, hf.2⟩

theorem pathBBoxes_eq_nil (getB : ℤ → Vec3 → Vec3 → List Rectangle3D) (path : List Move)
    (h : ∀ mv ∈ path, mv.type = MoveType.rapid ∨ mv.tool < 0) :
    pathBBoxes getB path = [] := by
  induction path with
  | nil => rfl
  | cons mv rest ih =>
    have hmv := h mv (List.mem_cons_self _ _)
    have hrest := ih fun m hm => h m (List.mem_cons_of_mem _ hm)
    unfold pathBBoxes at hrest ⊢
    simpa [List.foldr_cons, if_pos hmv] using hrest

/-- C8: updateAutomaticWorkpiece leaves the workpiece bounds (the cached
rectangle and the stored min/max corner options) unchanged when automatic
workpiece is disabled, and also when every motion segment is rapid or has a
negative tool id, so that no bounding boxes are produced. -/
theorem updateAutomaticWorkpiece_noop :
    ∀ (cr : ResolutionMode → Rectangle3D → ℚ) (getB : ℤ → Vec3 → Vec3 → List Rectangle3D)
      (path : List Move) (p : ProjectState),
      (p.getAutomaticWorkpiece = false ∨
        ∀ mv ∈ path, mv.type = MoveType.rapid ∨ mv.tool < 0) →
      (updateAutomaticWorkpiece cr getB path p).workpiece = p.workpiece ∧
      (updateAutomaticWorkpiece cr getB path p).workpieceMin = p.workpieceMin ∧
      (updateAutomaticWorkpiece cr getB path p).workpieceMax = p.workpieceMax := by
  intro cr getB path p h
  by_cases ha : p.getAutomaticWorkpiece
  · rcases h with h | h
    · rw [ha] at h
      exact absurd h (by simp)
    · have hnil : accumulateBounds getB path = Rectangle3D.defaultRect := by
        unfold accumulateBounds
        rw [pathBBoxes_eq_nil getB path h]
        rfl
      unfold updateAutomaticWorkpiece
      rw [if_neg (by simp [ha]), hnil, if_pos rfl]
      unfold ProjectState.setAutomaticWorkpiece ProjectState.markDirty
      split <;> simp
  · unfold updateAutomaticWorkpiece
    rw [if_pos ha]
    exact ⟨rfl, rfl, rfl⟩

/-- C8 witness: a path with a single rapid move (tool 3) on the default
project state (automatic workpiece on, since both bound strings are empty)
leaves all three workpiece-bound fields unchanged. -/
theorem updateAutomaticWorkpiece_noop_witness :
    (updateAutomaticWorkpiece (fun _ _ => 1) (fun _ _ _ => [])
        [{ type := MoveType.rapid, tool := 3, startPt := ⟨0, 0, 0⟩, endPt := ⟨1, 1, 1⟩ }]
        {}).workpiece = ({} : ProjectState).workpiece ∧
    (updateAutomaticWorkpiece (fun _ _ => 1) (fun _ _ _ => [])
        [{ type := MoveType.rapid, tool := 3, startPt := ⟨0, 0, 0⟩, endPt := ⟨1, 1, 1⟩ }]
        {}).workpieceMin = ({} : ProjectState).workpieceMin := by
  have h := updateAutomaticWorkpiece_noop (fun _ _ => 1) (fun _ _ _ => [])
    [{ type := MoveType.rapid, tool := 3, startPt := ⟨0, 0, 0⟩, endPt := ⟨1, 1, 1⟩ }] {}
    (Or.inr (by intro mv hmv; simp at hmv; subst hmv; left; rfl))
  exact ⟨h.1, h.2.1⟩

/-- C6 counterexample: a snubnose tool whose snub diameter is positive but
below the write threshold small = 1e-7 loses its snub diameter on an XML
round-trip (the attribute is not written, and reading into a fresh tool
leaves the default 0), so the round-trip does not preserve all three
fields. -/
theorem xml_roundtrip_small_snub_counterexample :
    (Tool.readXML {} (Tool.writeXML
      { shape := TS_SNUBNOSE, snubDiameter := 1 / 100000000 })).map
        (fun r => r.snubDiameter) = Except.ok 0 ∧
    ((1 : ℚ) / 100000000) ≠ 0 := by
  constructor
  · have hw : Tool.writeXML { shape := TS_SNUBNOSE, snubDiameter := 1 / 100000000 } =
        { number := some 0, unitsAttr := some (some ToolUnits.mm),
          shapeAttr := some (some 4), lengthAttr := some (some (10 * 1)),
          radiusAttr := some (some (1 * 1)), diameterAttr := none, snubAttr := none } := by
      unfold Tool.writeXML
      norm_num [TS_SNUBNOSE]
      decide
    rw [hw]
    rfl
  · norm_num

/-- C6 (amended): for every tool with positive radius and length, valid
shape, snub diameter 0 for non-snubnose shapes and above the write
threshold 1e-7 for snubnose, writing to XML and reading back into a fresh
tool, and writing to JSON and reading back into a fresh tool, restore the
radius, the length and the snub diameter exactly (doubles modelled as
exact rationals; imperial values divided by 25.4 on write and multiplied
by 25.4 on read). -/
theorem tool_roundtrip_amended :
    ∀ (t : Tool) (withNumber : Bool),
      0 < t.radius → 0 < t.length → t.shape < 5 →
      (t.shape = TS_SNUBNOSE → 1 / 10000000 < t.snubDiameter) →
      (t.shape ≠ TS_SNUBNOSE → t.snubDiameter = 0) →
      (Tool.readXML {} t.writeXML).map (fun r => (r.radius, r.length, r.snubDiameter)) =
        Except.ok (t.radius, t.length, t.snubDiameter) ∧
      (Tool.readJSON {} (t.writeJSON withNumber)).map
          (fun r => (r.radius, r.length, r.snubDiameter)) =
        Except.ok (t.radius, t.length, t.snubDiameter) := by
  intro t wN hr hl h5 hsnub hnsnub
  obtain ⟨n, pk, u, sh, L, R, S, d⟩ := t
  simp only at h5 hsnub hnsnub
  by_cases hs : sh = TS_SNUBNOSE
  · subst hs
    have hS := hsnub rfl
    have hS9 : (10000000 : ℚ)⁻¹ < S := by rwa [one_div] at hS
    cases u <;>
      constructor <;>
        · simp [Tool.writeXML, Tool.readXML, Tool.writeJSON, Tool.readJSON,
            Tool.setUnits, Tool.setShape, Tool.setLength, Tool.setRadius,
            Tool.setSnubDiameter, Tool.setNumber, Tool.setDiameter, Tool.setDescription,
            Tool.getDiameter, TS_SNUBNOSE, hS, Except.bind, bind, pure, Except.pure,
            Except.map]
          try rw [if_pos hS9]
          try simp
          try ring
          try exact ⟨trivial, trivial, trivial⟩
  · have hS0 := hnsnub hs
    subst hS0
    have hs4 : sh ≠ 4 := by simpa [TS_SNUBNOSE] using hs
    cases u <;>
      constructor <;>
        · simp [Tool.writeXML, Tool.readXML, Tool.writeJSON, Tool.readJSON,
            Tool.setUnits, Tool.setShape, Tool.setLength, Tool.setRadius,
            Tool.setSnubDiameter, Tool.setNumber, Tool.setDiameter, Tool.setDescription,
            Tool.getDiameter, TS_SNUBNOSE, hs, hs4, h5, Except.bind, bind, pure,
            Except.pure, Except.map]
          try rw [if_neg hs4]
          try simp
          try ring
          try exact ⟨trivial, trivial, trivial⟩
          try exact ⟨trivial, trivial⟩

/-- C6 witness: an inch-units snubnose tool (radius 6.35mm, length 12.7mm,
snub diameter 2.54mm, stored internally in millimetres) round-trips through
both the XML and the JSON form. -/
theorem tool_roundtrip_amended_witness :
    (Tool.readXML {} (Tool.writeXML
      { units := ToolUnits.inch, shape := TS_SNUBNOSE, length := 127 / 10,
        radius := 127 / 20, snubDiameter := 127 / 50 })).map
        (fun r => (r.radius, r.length, r.snubDiameter)) =
      Except.ok (127 / 20, 127 / 10, 127 / 50) ∧
    (Tool.readJSON {} (Tool.writeJSON
      { units := ToolUnits.inch, shape := TS_SNUBNOSE, length := 127 / 10,
        radius := 127 / 20, snubDiameter := 127 / 50 } true)).map
        (fun r => (r.radius, r.length, r.snubDiameter)) =
      Except.ok (127 / 20, 127 / 10, 127 / 50) :=
  tool_roundtrip_amended
    { units := ToolUnits.inch, shape := TS_SNUBNOSE, length := 127 / 10,
      radius := 127 / 20, snubDiameter := 127 / 50 } true
    (by norm_num) (by norm_num) (by norm_num [TS_SNUBNOSE])
    (fun _ => by norm_num) (fun h => absurd rfl h)

theorem clampWorkpiece_spec (wp : Rectangle3D)
    (hx : wp.rmin.x ≤ wp.rmax.x) (hy : wp.rmin.y ≤ wp.rmax.y) (hz : wp.rmin.z < 0) :
    clampWorkpiece wp =
      ⟨⟨wp.rmin.x, wp.rmin.y,
        if 0 - wp.rmin.z < 2 then wp.rmin.z - 2 else wp.rmin.z⟩,
       ⟨wp.rmax.x, wp.rmax.y, 0⟩⟩ := by
  have hne : (⟨wp.rmin, ⟨wp.rmax.x, wp.rmax.y, 0⟩⟩ : Rectangle3D) ≠
      Rectangle3D.defaultRect := by
    intro h
    have hz0 : wp.rmin.z = 0 := by
      have := congrArg (fun r => r.rmin.z) h
      simpa [Rectangle3D.defaultRect] using this
    linarith
  unfold clampWorkpiece
  simp only [Rectangle3D.getHeight]
  by_cases hh : (0 : ℚ) - wp.rmin.z < 2
  · rw [if_pos hh, addPt_of_ne_default _ _ hne, if_pos hh]
    simp only [Rectangle3D.mk.injEq, Vec3.mk.injEq]
    refine ⟨⟨min_self _, min_self _, min_eq_right (by linarith)⟩,
            max_eq_left (by linarith), max_eq_left (by linarith),
            max_eq_left (by linarith)⟩
  · rw [if_neg hh, if_neg hh]

theorem applyMargin_spec (w : Rectangle3D) (m : ℚ)
    (hx : w.rmin.x ≤ w.rmax.x) (hy : w.rmin.y ≤ w.rmax.y)
    (hz : w.rmin.z ≤ -2) (hz0 : w.rmax.z = 0) (hm : 0 ≤ m) :
    applyMargin w m =
      ⟨⟨w.rmin.x - w.getWidth * m / 100, w.rmin.y - w.getLen * m / 100,
        w.rmin.z - w.getHeight * m / 100⟩,
       ⟨w.rmax.x + w.getWidth * m / 100, w.rmax.y + w.getLen * m / 100, w.rmax.z⟩⟩ := by
  have hW : 0 ≤ w.getWidth * m / 100 :=
    div_nonneg (mul_nonneg (by unfold Rectangle3D.getWidth; linarith) hm) (by norm_num)
  have hL : 0 ≤ w.getLen * m / 100 :=
    div_nonneg (mul_nonneg (by unfold Rectangle3D.getLen; linarith) hm) (by norm_num)
  have hH : 0 ≤ w.getHeight * m / 100 :=
    div_nonneg (mul_nonneg (by unfold Rectangle3D.getHeight; linarith) hm) (by norm_num)
  have hne1 : w ≠ Rectangle3D.defaultRect := by
    intro h
    have hz0' : w.rmin.z = 0 := by
      have := congrArg (fun r => r.rmin.z) h
      simpa [Rectangle3D.defaultRect] using this
    linarith
  have h1 : w.addPt ⟨w.rmin.x - w.getWidth * m / 100, w.rmin.y - w.getLen * m / 100,
      w.rmin.z - w.getHeight * m / 100⟩ =
      ⟨⟨w.rmin.x - w.getWidth * m / 100, w.rmin.y - w.getLen * m / 100,
        w.rmin.z - w.getHeight * m / 100⟩,
       ⟨w.rmax.x, w.rmax.y, w.rmax.z⟩⟩ := by
    rw [addPt_of_ne_default _ _ hne1]
    simp only [Rectangle3D.mk.injEq, Vec3.mk.injEq]
    refine ⟨⟨min_eq_right (by linarith), min_eq_right (by linarith),
             min_eq_right (by linarith)⟩,
            max_eq_left (by linarith), max_eq_left (by linarith),
            max_eq_left (by linarith)⟩
  have hne2 : (⟨⟨w.rmin.x - w.getWidth * m / 100, w.rmin.y - w.getLen * m / 100,
      w.rmin.z - w.getHeight * m / 100⟩,
      ⟨w.rmax.x, w.rmax.y, w.rmax.z⟩⟩ : Rectangle3D) ≠ Rectangle3D.defaultRect := by
    intro h
    have hz0' : w.rmin.z - w.getHeight * m / 100 = 0 := by
      have := congrArg (fun r => r.rmin.z) h
      simpa [Rectangle3D.defaultRect] using this
    linarith
  unfold applyMargin
  simp only [h1]
  rw [addPt_of_ne_default _ _ hne2]
  simp only [Rectangle3D.mk.injEq, Vec3.mk.injEq]
  refine ⟨⟨min_eq_left (by linarith), min_eq_left (by linarith),
           min_eq_left (by linarith)⟩,
          max_eq_right (by linarith), max_eq_right (by linarith), max_self _⟩

theorem updateAutomaticWorkpiece_commit (cr : ResolutionMode → Rectangle3D → ℚ)
    (getB : ℤ → Vec3 → Vec3 → List Rectangle3D) (path : List Move) (p : ProjectState)
    (ha : p.getAutomaticWorkpiece = true)
    (hwp : accumulateBounds getB path ≠ Rectangle3D.defaultRect) :
    (updateAutomaticWorkpiece cr getB path p).workpiece =
      applyMargin (clampWorkpiece (accumulateBounds getB path)) p.workpieceMargin := by
  have hmargin : (p.setAutomaticWorkpiece true).workpieceMargin = p.workpieceMargin := by
    unfold ProjectState.setAutomaticWorkpiece ProjectState.markDirty
    split <;> rfl
  unfold updateAutomaticWorkpiece
  rw [if_neg (by simp [ha]), if_neg hwp, hmargin]
  rfl

/-- C2 counterexample: accumulated tool bounds ((0,0,-10),(10,10,5)) with
the default 5 percent margin commit the workpiece
((-0.5,-0.5,-10.5),(10.5,10.5,0)): the top face is at z = 0 and the slab is
thick enough, but the margin step changed the z-extent from 10 to 10.5
(the minimum corner is pushed down by margin percent of the height),
refuting the claim that the margin expansion leaves the z-extent
unchanged. -/
theorem workpiece_margin_z_extent_counterexample :
    (updateAutomaticWorkpiece (fun _ _ => 1)
        (fun _ _ _ => [⟨⟨0, 0, -10⟩, ⟨10, 10, 5⟩⟩])
        [{ type := MoveType.cutting, tool := 0, startPt := ⟨0, 0, 0⟩, endPt := ⟨1, 0, 0⟩ }]
        { automaticWorkpiece := some true }).workpiece =
      ⟨⟨-(1 / 2), -(1 / 2), -(21 / 2)⟩, ⟨21 / 2, 21 / 2, 0⟩⟩ ∧
    Rectangle3D.getHeight ⟨⟨-(1 / 2), -(1 / 2), -(21 / 2)⟩, ⟨21 / 2, 21 / 2, 0⟩⟩ ≠
      Rectangle3D.getHeight (clampWorkpiece ⟨⟨0, 0, -10⟩, ⟨10, 10, 5⟩⟩) := by
  have hacc : accumulateBounds (fun _ _ _ => [(⟨⟨0, 0, -10⟩, ⟨10, 10, 5⟩⟩ : Rectangle3D)])
      [{ type := MoveType.cutting, tool := 0, startPt := ⟨0, 0, 0⟩, endPt := ⟨1, 0, 0⟩ }] =
      ⟨⟨0, 0, -10⟩, ⟨10, 10, 5⟩⟩ := by
    have h1 : pathBBoxes (fun _ _ _ => [(⟨⟨0, 0, -10⟩, ⟨10, 10, 5⟩⟩ : Rectangle3D)])
        [{ type := MoveType.cutting, tool := 0, startPt := ⟨0, 0, 0⟩, endPt := ⟨1, 0, 0⟩ }] =
        [⟨⟨0, 0, -10⟩, ⟨10, 10, 5⟩⟩] := by
      unfold pathBBoxes
      simp
    have s1 : Rectangle3D.addPt Rectangle3D.defaultRect ⟨0, 0, -10⟩ =
        ⟨⟨0, 0, -10⟩, ⟨0, 0, -10⟩⟩ := by
      unfold Rectangle3D.addPt
      rw [if_pos rfl]
    have s2 : Rectangle3D.addPt ⟨⟨0, 0, -10⟩, ⟨0, 0, -10⟩⟩ ⟨10, 10, 5⟩ =
        ⟨⟨0, 0, -10⟩, ⟨10, 10, 5⟩⟩ := by
      rw [addPt_of_ne_default _ _ (by
        intro h
        have h2 := congrArg (fun r => r.rmin.z) h
        simp [Rectangle3D.defaultRect] at h2)]
      norm_num [Rectangle3D.mk.injEq, Vec3.mk.injEq, min_def, max_def]
    unfold accumulateBounds
    rw [h1]
    simp only [List.foldl_cons, List.foldl_nil]
    unfold Rectangle3D.addRect
    simp only [s1, s2]
  have hclamp : clampWorkpiece ⟨⟨0, 0, -10⟩, ⟨10, 10, 5⟩⟩ =
      ⟨⟨0, 0, -10⟩, ⟨10, 10, 0⟩⟩ := by
    rw [clampWorkpiece_spec _ (by norm_num) (by norm_num) (by norm_num)]
    norm_num
  have hned : accumulateBounds (fun _ _ _ => [(⟨⟨0, 0, -10⟩, ⟨10, 10, 5⟩⟩ : Rectangle3D)])
      [{ type := MoveType.cutting, tool := 0, startPt := ⟨0, 0, 0⟩, endPt := ⟨1, 0, 0⟩ }] ≠
      Rectangle3D.defaultRect := by
    rw [hacc]
    intro h
    have h2 := congrArg (fun r => r.rmin.z) h
    simp [Rectangle3D.defaultRect] at h2
  constructor
  · rw [updateAutomaticWorkpiece_commit _ _ _ _ (by rfl) hned, hacc, hclamp]
    rw [applyMargin_spec _ _ (by norm_num) (by norm_num) (by norm_num) (by norm_num)
      (by norm_num)]
    norm_num [Rectangle3D.getWidth, Rectangle3D.getLen, Rectangle3D.getHeight,
      Rectangle3D.mk.injEq, Vec3.mk.injEq]
  · rw [hclamp]
    norm_num [Rectangle3D.getHeight]

/-- C2 (amended): whenever updateAutomaticWorkpiece commits new workpiece
bounds from accumulated bounds that are well-formed in x and y, reach below
the stock surface (min z strictly negative) and with a non-negative margin
percentage, the committed slab has its top face at z = 0 and is at least
2mm thick, and the margin step expands x and y by margin percent of the
width and depth on each side while keeping the top at z = 0 but also pushes
the bottom face down by margin percent of the slab height (the z-extent is
not left unchanged by the margin step). -/
theorem updateAutomaticWorkpiece_commit_amended :
    ∀ (cr : ResolutionMode → Rectangle3D → ℚ) (getB : ℤ → Vec3 → Vec3 → List Rectangle3D)
      (path : List Move) (p : ProjectState) (wp w c : Rectangle3D) (m : ℚ),
      p.getAutomaticWorkpiece = true →
      accumulateBounds getB path = wp →
      wp ≠ Rectangle3D.defaultRect →
      wp.rmin.x ≤ wp.rmax.x → wp.rmin.y ≤ wp.rmax.y → wp.rmin.z < 0 →
      p.workpieceMargin = m → 0 ≤ m →
      clampWorkpiece wp = w →
      (updateAutomaticWorkpiece cr getB path p).workpiece = c →
      c.rmax.z = 0 ∧
      2 ≤ c.rmax.z - c.rmin.z ∧
      c.rmin.x = w.rmin.x - w.getWidth * m / 100 ∧
      c.rmax.x = w.rmax.x + w.getWidth * m / 100 ∧
      c.rmin.y = w.rmin.y - w.getLen * m / 100 ∧
      c.rmax.y = w.rmax.y + w.getLen * m / 100 ∧
      c.rmin.z = w.rmin.z - w.getHeight * m / 100 := by
  intro cr getB path p wp w c m ha hacc hne hx hy hz hmg hm hclamp hc
  have hw := clampWorkpiece_spec wp hx hy hz
  rw [hclamp] at hw
  have hwx : w.rmin.x ≤ w.rmax.x := by rw [hw]; simpa using hx
  have hwy : w.rmin.y ≤ w.rmax.y := by rw [hw]; simpa using hy
  have hwz : w.rmin.z ≤ -2 := by
    rw [hw]
    simp only
    split <;> linarith
  have hwz0 : w.rmax.z = 0 := by rw [hw]
  have hcommit := updateAutomaticWorkpiece_commit cr getB path p ha (hacc ▸ hne)
  rw [hacc, hclamp, hmg] at hcommit
  rw [hcommit] at hc
  rw [applyMargin_spec w m hwx hwy hwz hwz0 hm] at hc
  subst hc
  have hH : 0 ≤ w.getHeight * m / 100 :=
    div_nonneg (mul_nonneg (by unfold Rectangle3D.getHeight; linarith) hm) (by norm_num)
  refine ⟨by simpa using hwz0, ?_, rfl, rfl, rfl, rfl, rfl⟩
  simp only
  rw [hwz0]
  linarith

/-- C2 witness: accumulated bounds ((-1,-1,-1),(9,9,4)) with a 10 percent
margin commit a slab whose top face is at z = 0 and whose thickness is at
least 2mm (the thin accumulated envelope triggers the 2mm rule). -/
theorem updateAutomaticWorkpiece_commit_amended_witness :
    (updateAutomaticWorkpiece (fun _ _ => 1)
        (fun _ _ _ => [⟨⟨-1, -1, -1⟩, ⟨9, 9, 4⟩⟩])
        [{ type := MoveType.cutting, tool := 0, startPt := ⟨0, 0, 0⟩, endPt := ⟨1, 0, 0⟩ }]
        { automaticWorkpiece := some true, workpieceMargin := 10 }).workpiece.rmax.z = 0 ∧
    2 ≤ (updateAutomaticWorkpiece (fun _ _ => 1)
        (fun _ _ _ => [⟨⟨-1, -1, -1⟩, ⟨9, 9, 4⟩⟩])
        [{ type := MoveType.cutting, tool := 0, startPt := ⟨0, 0, 0⟩, endPt := ⟨1, 0, 0⟩ }]
        { automaticWorkpiece := some true, workpieceMargin := 10 }).workpiece.rmax.z -
      (updateAutomaticWorkpiece (fun _ _ => 1)
        (fun _ _ _ => [⟨⟨-1, -1, -1⟩, ⟨9, 9, 4⟩⟩])
        [{ type := MoveType.cutting, tool := 0, startPt := ⟨0, 0, 0⟩, endPt := ⟨1, 0, 0⟩ }]
        { automaticWorkpiece := some true, workpieceMargin := 10 }).workpiece.rmin.z := by
  have h1 : pathBBoxes (fun _ _ _ => [(⟨⟨-1, -1, -1⟩, ⟨9, 9, 4⟩⟩ : Rectangle3D)])
      [{ type := MoveType.cutting, tool := 0, startPt := ⟨0, 0, 0⟩, endPt := ⟨1, 0, 0⟩ }] =
      [⟨⟨-1, -1, -1⟩, ⟨9, 9, 4⟩⟩] := by
    unfold pathBBoxes
    simp
  have hacc : accumulateBounds (fun _ _ _ => [(⟨⟨-1, -1, -1⟩, ⟨9, 9, 4⟩⟩ : Rectangle3D)])
      [{ type := MoveType.cutting, tool := 0, startPt := ⟨0, 0, 0⟩, endPt := ⟨1, 0, 0⟩ }] =
      ⟨⟨-1, -1, -1⟩, ⟨9, 9, 4⟩⟩ := by
    have s1 : Rectangle3D.addPt Rectangle3D.defaultRect ⟨-1, -1, -1⟩ =
        ⟨⟨-1, -1, -1⟩, ⟨-1, -1, -1⟩⟩ := by
      unfold Rectangle3D.addPt
      rw [if_pos rfl]
    have s2 : Rectangle3D.addPt ⟨⟨-1, -1, -1⟩, ⟨-1, -1, -1⟩⟩ ⟨9, 9, 4⟩ =
        ⟨⟨-1, -1, -1⟩, ⟨9, 9, 4⟩⟩ := by
      rw [addPt_of_ne_default _ _ (by
        intro h
        have h2 := congrArg (fun r => r.rmin.z) h
        simp [Rectangle3D.defaultRect] at h2)]
      norm_num [Rectangle3D.mk.injEq, Vec3.mk.injEq, min_def, max_def]
    unfold accumulateBounds
    rw [h1]
    simp only [List.foldl_cons, List.foldl_nil]
    unfold Rectangle3D.addRect
    simp only [s1, s2]
  have h := updateAutomaticWorkpiece_commit_amended (fun _ _ => 1)
    (fun _ _ _ => [⟨⟨-1, -1, -1⟩, ⟨9, 9, 4⟩⟩])
    [{ type := MoveType.cutting, tool := 0, startPt := ⟨0, 0, 0⟩, endPt := ⟨1, 0, 0⟩ }]
    { automaticWorkpiece := some true, workpieceMargin := 10 }
    ⟨⟨-1, -1, -1⟩, ⟨9, 9, 4⟩⟩ (clampWorkpiece ⟨⟨-1, -1, -1⟩, ⟨9, 9, 4⟩⟩) _ 10
    (by rfl) hacc
    (by
      intro h
      have h2 := congrArg (fun r => r.rmin.z) h
      simp [Rectangle3D.defaultRect] at h2)
    (by norm_num) (by norm_num) (by norm_num) rfl (by norm_num) rfl rfl
  exact ⟨h.1, h.2.1⟩

/-- C9 (amended): getAngle returns the stated rounded formula, and
setLengthFromAngle inverts the unrounded angle map exactly: applied to
180 - 360·atan(length/radius)/pi it restores the length for any tool with
positive radius and length.  Because getAngle rounds to two decimal
places, applying setLengthFromAngle to getAngle itself need not restore
the length (see the counterexample). -/
theorem angle_inverse_amended :
    ∀ t : Tool, 0 < t.radius → 0 < t.length →
      t.getAngle = roundHalfFromZero
        ((180 - 360 * Real.arctan ((t.length : ℝ) / (t.radius : ℝ)) / Real.pi) * 100) / 100 ∧
      t.setLengthFromAngleVal
        (180 - 360 * Real.arctan ((t.length : ℝ) / (t.radius : ℝ)) / Real.pi) =
        (t.length : ℝ) := by
  intro t hr hl
  refine ⟨rfl, ?_⟩
  unfold Tool.setLengthFromAngleVal
  have hr0 : (t.radius : ℝ) ≠ 0 := by
    have h1 : (0 : ℝ) < (t.radius : ℝ) := by exact_mod_cast hr
    linarith
  have harg : (1 - (180 - 360 * Real.arctan ((t.length : ℝ) / (t.radius : ℝ)) / Real.pi)
      / 180) * Real.pi / 2 = Real.arctan ((t.length : ℝ) / (t.radius : ℝ)) := by
    field_simp
    ring
  rw [harg, Real.tan_arctan]
  field_simp

/-- C9 witness: the exact inverse property evaluated at the default metric
tool (length 10, radius 1). -/
theorem angle_inverse_amended_witness :
    Tool.setLengthFromAngleVal {}
      (180 - 360 * Real.arctan (((10 : ℚ) : ℝ) / ((1 : ℚ) : ℝ)) / Real.pi) =
      ((10 : ℚ) : ℝ) :=
  (angle_inverse_amended {} (by norm_num) (by norm_num)).2

/-- C9 counterexample: for the tool with length 1 and radius 25001/25000
the exact angle lies strictly between 90 and 90.005 degrees, so getAngle
rounds it to 90; setLengthFromAngle(90) stores radius·tan(pi/4) = radius =
25001/25000, not the original length 1.  The two-decimal rounding breaks
the claimed exact inversion. -/
theorem setLengthFromAngle_rounding_counterexample :
    Tool.setLengthFromAngleVal { length := 1, radius := 25001 / 25000 }
      (Tool.getAngle { length := 1, radius := 25001 / 25000 }) ≠
      ((({ length := 1, radius := 25001 / 25000 } : Tool).length : ℚ) : ℝ) := by
  have hpi := Real.pi_pos
  have hpi3 := Real.pi_gt_three
  set δ : ℝ := Real.pi / 72000 with hδ
  have hδpos : 0 < δ := by rw [hδ]; positivity
  have hδlt : δ < Real.pi / 4 := by rw [hδ]; linarith
  have hδhalf : δ < Real.pi / 2 := by linarith
  have hδ3 : 1 / 24000 < δ := by rw [hδ]; linarith
  have hratio : (((1 : ℚ) : ℝ) / ((25001 / 25000 : ℚ) : ℝ)) = 25000 / 25001 := by
    push_cast
    norm_num
  set θ : ℝ := Real.arctan (25000 / 25001) with hθ
  have hcos : 0 < Real.cos δ :=
    Real.cos_pos_of_mem_Ioo ⟨by linarith, hδhalf⟩
  have hsin : 0 < Real.sin δ :=
    Real.sin_pos_of_pos_of_lt_pi hδpos (by linarith)
  have htanδ : δ < Real.tan δ := Real.lt_tan hδpos hδhalf
  have hsinlb : δ * Real.cos δ < Real.sin δ := by
    have h1 : δ < Real.sin δ / Real.cos δ := by
      rwa [Real.tan_eq_sin_div_cos] at htanδ
    rwa [lt_div_iff hcos] at h1
  have htan : Real.tan (Real.pi / 4 - δ) < 25000 / 25001 := by
    rw [Real.tan_eq_sin_div_cos, Real.sin_sub, Real.cos_sub, Real.sin_pi_div_four,
      Real.cos_pi_div_four]
    have hs2 : (0 : ℝ) < Real.sqrt 2 / 2 := by positivity
    have hform : (Real.sqrt 2 / 2 * Real.cos δ - Real.sqrt 2 / 2 * Real.sin δ) /
        (Real.sqrt 2 / 2 * Real.cos δ + Real.sqrt 2 / 2 * Real.sin δ) =
        (Real.cos δ - Real.sin δ) / (Real.cos δ + Real.sin δ) := by
      rw [div_eq_div_iff (by nlinarith) (by nlinarith)]
      ring
    rw [hform]
    rw [div_lt_div_iff (by linarith) (by norm_num)]
    have hA : 50001 * (δ * Real.cos δ) < 50001 * Real.sin δ := by linarith
    have hB : (1 / 24000) * Real.cos δ < δ * Real.cos δ :=
      mul_lt_mul_of_pos_right hδ3 hcos
    nlinarith
  have hθub : θ < Real.pi / 4 := by
    rw [hθ, ← Real.arctan_one]
    exact Real.arctan_strictMono (by norm_num)
  have hθlb : Real.pi / 4 - δ < θ := by
    have h1 : Real.arctan (Real.tan (Real.pi / 4 - δ)) = Real.pi / 4 - δ :=
      Real.arctan_tan (by linarith) (by linarith)
    calc Real.pi / 4 - δ = Real.arctan (Real.tan (Real.pi / 4 - δ)) := h1.symm
      _ < θ := Real.arctan_strictMono htan
  have ha1 : 360 * θ / Real.pi < 90 := by
    rw [div_lt_iff hpi]
    linarith
  have ha2 : 90 - 1 / 200 < 360 * θ / Real.pi := by
    rw [lt_div_iff hpi]
    have hδback : Real.pi / 72000 = δ := hδ.symm
    nlinarith [hθlb]
  have hfloor : (⌊(180 - 360 * θ / Real.pi) * 100 + 1 / 2⌋ : ℤ) = 9000 := by
    rw [Int.floor_eq_iff]
    constructor
    · push_cast
      nlinarith
    · push_cast
      nlinarith
  have hangle : Tool.getAngle { length := 1, radius := 25001 / 25000 } = 90 := by
    unfold Tool.getAngle roundHalfFromZero
    rw [hratio, ← hθ]
    rw [if_neg (by push_neg; nlinarith)]
    rw [hfloor]
    norm_num
  rw [hangle]
  unfold Tool.setLengthFromAngleVal
  have harg : (1 - (90 : ℝ) / 180) * Real.pi / 2 = Real.pi / 4 := by ring
  rw [harg, Real.tan_pi_div_four]
  push_cast
  norm_num
